import Mathlib

/-!
Verification of the face-recognition service against its design document.

The development shallowly embeds the Python source:
* `app/services/milvus_service.py`  — registry store (insert, search, delete),
* `app/services/embeddings_service.py` — extraction, pairwise compare,
  multi-face detect-and-search,
* `app/controllers/faces_controller.py` — register / search / update routes,
* `app/workers.py` — asynchronous register/search workers and the
  completion-notification dispatcher.

Conventions of the embedding:
* images are represented by the detection list the (external, deterministic)
  extractor produces for them; a `Detection` is a bounding box plus an
  embedding vector, exactly the dicts `facenet_model.extract` returns;
* embedding vectors are lists of rationals (the code's float vectors);
* the Milvus collection is a `RegState`: the list of stored rows;
  `collection.num_entities` is the row count; `collection.search` with the
  L2 metric ranks by squared Euclidean distance (Milvus's L2), ascending;
* the wall clock (`time.time()`) is passed in explicitly as `now`;
* filesystem and S3 side effects (saving the annotated image) carry no
  registry state and are omitted; every registry read/write of the source
  is modelled.
-/

namespace FaceAPI

/-- The `metadata` key-value map, as an association list (first hit wins on
lookup, mirroring a Python dict viewed through `lookup`). -/
abbrev Metadata := List (String × String)

/-- The content of the stored `metadata` VARCHAR, remembering which
serializer wrote it: `insert_face` stores `str(metadata or {})` — the
Python repr of the dict — while `update_face` re-stores
`json.dumps(merged_metadata)`. -/
inductive StoredMeta where
  | pyRepr (m : Metadata)
  | jsonStr (m : Metadata)
deriving Repr, DecidableEq

/-- `json.loads` applied to the stored metadata string, with the
`except: {}` fallback of `update_face`.  `json.dumps` output round-trips
to the same map.  Python's repr single-quotes its keys, so for a
non-empty map (keys and values here are quote-free strings) the parse
raises and the fallback yields the empty map; `str({})` is the string
with an opening and a closing brace, which parses to the empty map — so
a repr-stored map is always recovered as empty. -/
def jsonLoadsD : StoredMeta → Metadata
  | .pyRepr _ => []
  | .jsonStr m => m

/-- One stored row of the Milvus collection `faces`
(schema in `milvus_service.create_collection_if_not_exists`). -/
structure FaceRecord where
  face_id : ℤ
  suspect_id : ℤ
  embedding : List ℚ
  timestamp : ℤ
  is_query : Bool
  metadata : StoredMeta
  s3_path : String
deriving Repr, DecidableEq

/-- The registry state: the rows currently stored in the collection. -/
structure RegState where
  records : List FaceRecord
deriving Repr, DecidableEq

/-- One face detection returned by `facenet_model.extract`:
a bounding box and the face's embedding vector. -/
structure Detection where
  box : List ℤ
  embedding : List ℚ
deriving Repr, DecidableEq

/-- `collection.num_entities`: the number of rows of the collection
(deletions remove rows, per the registry-store contract of the design). -/
def num_entities (reg : RegState) : ℕ := reg.records.length

/-- The `suspect_id` value stored by `insert_face`: the source line
`int(suspect_id) if suspect_id else 0` — a falsy id (absent or zero)
is stored as `0`. -/
def storedSuspectId (suspect_id : Option ℤ) : ℤ :=
  match suspect_id with
  | none => 0
  | some v => if v = 0 then 0 else v

/-- `milvus_service.insert_face`: assigns `face_id = num_entities + 1`,
stamps the current time, serializes the metadata as `str(metadata or {})`
(a falsy map and the empty map repr to the same brace pair), and appends
the row.  Returns the assigned id and the new registry state. -/
def insert_face (reg : RegState) (suspect_id : Option ℤ) (embedding : List ℚ)
    (is_query : Bool) (metadata : Metadata) (s3_path : Option String)
    (now : ℤ) : ℤ × RegState :=
  let face_id : ℤ := (num_entities reg : ℤ) + 1
  (face_id,
   ⟨reg.records ++
      [{ face_id := face_id
         suspect_id := storedSuspectId suspect_id
         embedding := embedding
         timestamp := now
         is_query := is_query
         metadata := StoredMeta.pyRepr metadata
         s3_path := s3_path.getD "" }]⟩)

/-- The delete route (`faces_controller.delete_face`):
`collection.delete(f"face_id == {face_id}")` removes the matching rows and
reports how many were removed. -/
def delete_face (reg : RegState) (fid : ℤ) : ℕ × RegState :=
  ((reg.records.filter (fun r => r.face_id == fid)).length,
   ⟨reg.records.filter (fun r => r.face_id != fid)⟩)

/-- Squared Euclidean distance of two vectors (componentwise over `zip`,
as numpy's broadcasting requires equal lengths).  Milvus's `L2` metric
scores hits by exactly this quantity. -/
def sumSqDiff (v1 v2 : List ℚ) : ℚ :=
  ((v1.zip v2).map (fun p => (p.1 - p.2) ^ 2)).sum

/-- One search hit as `search_similar_faces` returns it:
`{face_id, suspect_id, distance}`. -/
structure MilvusMatch where
  face_id : ℤ
  suspect_id : ℤ
  distance : ℚ
deriving Repr, DecidableEq

/-- The hit a stored row produces for a given query embedding. -/
def toMatch (query : List ℚ) (r : FaceRecord) : MilvusMatch :=
  { face_id := r.face_id, suspect_id := r.suspect_id
    distance := sumSqDiff r.embedding query }

/-- The ranking Milvus applies to hits: ascending distance,
ties broken by smaller id. -/
def matchLE (a b : MilvusMatch) : Bool :=
  a.distance < b.distance || (a.distance == b.distance && a.face_id ≤ b.face_id)

/-- `milvus_service.search_similar_faces`: restricts the search to the rows
with `is_query == false` (the `expr` filter on queried `valid_face_ids`,
re-checked per hit), ranks the hits by distance, and returns the first
`top_k`. -/
def search_similar_faces (reg : RegState) (embedding : List ℚ)
    (top_k : ℕ) : List MilvusMatch :=
  (((reg.records.filter (fun r => !r.is_query)).map
      (toMatch embedding)).mergeSort matchLE).take top_k

/-- The successful payload of `generate_embeddings`: the first detection's
embedding plus every detection's bounding box. -/
structure EmbResult where
  embedding : List ℚ
  boxes : List (List ℤ)
deriving Repr, DecidableEq

/-- `embeddings_service.generate_embeddings`: errors when no face is
detected; otherwise returns `detections[0]["embedding"]` together with all
bounding boxes. -/
def generate_embeddings (dets : List Detection) : Except String EmbResult :=
  match dets with
  | [] => .error "Nenhum rosto detectado na imagem."
  | d :: _ => .ok { embedding := d.embedding, boxes := dets.map (fun x => x.box) }

/-- Truthiness of the `suspect_id` request field
(`if not suspect_id` in the register route). -/
def idTruthy (suspect_id : Option ℤ) : Bool :=
  match suspect_id with
  | none => false
  | some v => v != 0

/-- The register route (`faces_controller.register_face`, upload branch)
and the register worker (`workers.process_register_face`): extract, then
insert the extracted embedding with `is_query=False` bound to the given
suspect, returning the new record id.  The registry is returned unchanged
on any error. -/
def register_face (reg : RegState) (suspect_id : Option ℤ)
    (dets : List Detection) (metadata : Metadata) (s3_path : Option String)
    (now : ℤ) : Except String ℤ × RegState :=
  if !idTruthy suspect_id then
    (.error "Campo suspect_id é obrigatório.", reg)
  else
    match generate_embeddings dets with
    | .error e => (.error e, reg)
    | .ok res =>
      let fr := insert_face reg suspect_id res.embedding false metadata s3_path now
      (.ok fr.1, fr.2)

/-- A detection's score in `detect_and_search_faces`:
`matches[0]["distance"]` when Milvus returned anything, else
`float("inf")` (modelled as `⊤`). -/
def bestDistance (ms : List MilvusMatch) : WithTop ℚ :=
  match ms with
  | [] => ⊤
  | m :: _ => (m.distance : WithTop ℚ)

/-- `np.argmin`: the first index at which a list of scores attains its
minimum (`0` on the empty list, which the pipeline never passes). -/
def argminIdx : List (WithTop ℚ) → ℕ
  | [] => 0
  | [_] => 0
  | d :: e :: rest =>
    let j := argminIdx (e :: rest)
    if d ≤ (e :: rest).getD j ⊤ then 0 else j + 1

/-- The payload `detect_and_search_faces` returns on success
(the saved annotated-image path carries no registry state and is omitted). -/
structure SearchOutcome where
  boxes : List (List ℤ)
  winner_box : List ℤ
  winner_index : ℕ
  winner_match : Option MilvusMatch
deriving Repr, DecidableEq

/-- `embeddings_service.detect_and_search_faces`: errors when no face is
detected; otherwise searches the registry once per detection, scores each
detection by its first (best) hit — infinity when there is none — and
reports the detection with the smallest score as the winner. -/
def detect_and_search_faces (reg : RegState) (dets : List Detection)
    (top_k : ℕ) : Except String SearchOutcome :=
  match dets with
  | [] => .error "Nenhum rosto detectado na imagem."
  | _ :: _ =>
    let all_boxes := dets.map (fun d => d.box)
    let all_matches :=
      dets.map (fun d => (search_similar_faces reg d.embedding top_k).head?)
    let all_distances :=
      dets.map (fun d => bestDistance (search_similar_faces reg d.embedding top_k))
    let winner_index := argminIdx all_distances
    .ok { boxes := all_boxes
          winner_box := all_boxes.getD winner_index []
          winner_index := winner_index
          winner_match := all_matches.getD winner_index none }

/-- The search route (`faces_controller.search_faces`, upload branch):
runs `detect_and_search_faces` and reads suspect metadata.  The source
performs no registry write on this path — the registry state after the
call is the state before it. -/
def search_faces_route (reg : RegState) (dets : List Detection)
    (top_k : ℕ) : Except String SearchOutcome × RegState :=
  (detect_and_search_faces reg dets top_k, reg)

/-- The search worker (`workers.process_search_face_worker`): downloads the
image, runs `detect_and_search_faces`, and uploads the annotated image to
S3.  Its only registry accesses are the reads inside
`detect_and_search_faces`; the source contains no `insert_face` call, so
the registry state is unchanged. -/
def process_search_face_worker (reg : RegState) (dets : List Detection)
    (top_k : ℕ) : Except String SearchOutcome × RegState :=
  (detect_and_search_faces reg dets top_k, reg)

/-- Python's `{**old, **new}` viewed as a lookup table: a key found in
`new` wins, otherwise `old` answers.  (`List.lookup` takes the first
match, so prepending `new` gives `new` priority.) -/
def mergeMeta (old new : Metadata) : Metadata := new ++ old

/-- The update route (`faces_controller.update_face`): looks the record up,
recovers its old metadata by `json.loads(current["metadata"])` — falling
back to the empty map when that raises, which it does for every non-empty
repr-serialized map `insert_face` stored — merges the patch over the
recovered map, then deletes and reinserts the row with the same `face_id`,
the same embedding, timestamp, `is_query` flag and `s3_path`, the patched
`suspect_id` (unchanged when the patch omits it), and the merged metadata
re-serialized with `json.dumps`. -/
def update_face (reg : RegState) (fid : ℤ) (new_suspect_id : Option ℤ)
    (new_metadata : Metadata) : Except String RegState :=
  match reg.records.find? (fun r => r.face_id == fid) with
  | none => .error "Face não encontrada."
  | some cur =>
    let updated_suspect_id :=
      match new_suspect_id with
      | some v => v
      | none => cur.suspect_id
    let old_metadata := jsonLoadsD cur.metadata
    let merged := mergeMeta old_metadata new_metadata
    .ok ⟨reg.records.filter (fun r => r.face_id != fid) ++
          [{ face_id := fid
             suspect_id := updated_suspect_id
             embedding := cur.embedding
             timestamp := cur.timestamp
             is_query := cur.is_query
             metadata := StoredMeta.jsonStr merged
             s3_path := cur.s3_path }]⟩

/-- The default of the `threshold` parameter of
`compare_embeddings(image1, image2, threshold=0.7)`. -/
def compare_default_threshold : ℚ := 7 / 10

/-- `numpy.linalg.norm(v1 - v2)`: the Euclidean length of the difference
vector, i.e. the square root of the summed squared component
differences. -/
noncomputable def l2dist (v1 v2 : List ℚ) : ℝ :=
  Real.sqrt ((sumSqDiff v1 v2 : ℚ) : ℝ)

/-- What `compare_embeddings` reports: the distance and the
`distance < threshold` verdict. -/
structure CompareOutcome where
  distance : ℝ
  same_person : Prop

/-- `embeddings_service.compare_embeddings`: extracts an embedding from
each image (errors if either extraction fails), reports the Euclidean
distance of the two embeddings and `same_person = (distance < threshold)`.
The function makes no registry call. -/
noncomputable def compare_embeddings (dets1 dets2 : List Detection)
    (threshold : ℚ) : Except String CompareOutcome :=
  match generate_embeddings dets1, generate_embeddings dets2 with
  | .ok r1, .ok r2 =>
      .ok { distance := l2dist r1.embedding r2.embedding
            same_person := l2dist r1.embedding r2.embedding < (threshold : ℝ) }
  | _, _ => .error "Não foi possível extrair embeddings de uma das imagens."

/-- The compare route (`embeddings_controller.compare`): calls only
`compare_embeddings`, which touches no registry state. -/
noncomputable def compare_route (reg : RegState) (dets1 dets2 : List Detection)
    (threshold : ℚ) : Except String CompareOutcome × RegState :=
  (compare_embeddings dets1 dets2 threshold, reg)

/-- What one outbound completion-notification attempt runs into. -/
inductive NotifyOutcome where
  | response (code : ℕ) (body : String)
  | timeout
  | connectionError
  | failure (msg : String)
deriving Repr, DecidableEq

/-- How a notification call ended: how many HTTP posts it made, whether an
exception escaped to the caller, and the log line it printed. -/
structure NotifyResult where
  attempts : ℕ
  escalates : Bool
  log : String
deriving Repr, DecidableEq

/-- `workers.notify_java_completion`: one post; a non-200 response is only
logged; `Timeout`, `ConnectionError` and any other exception are caught
and logged.  No branch re-raises and no branch retries. -/
def notify_java_completion (o : NotifyOutcome) : NotifyResult :=
  match o with
  | .response code _ =>
      if code == 200 then ⟨1, false, "Webhook enviado com sucesso"⟩
      else ⟨1, false, "Webhook retornou status inesperado"⟩
  | .timeout => ⟨1, false, "Timeout ao enviar webhook para Java"⟩
  | .connectionError => ⟨1, false, "Erro de conexão ao enviar webhook para Java"⟩
  | .failure _ => ⟨1, false, "Erro inesperado ao enviar webhook"⟩

/-- `workers.notify_java_search_completion`: one post; a non-200 response
is only logged; every exception is caught by the blanket handler.  No
branch re-raises and no branch retries. -/
def notify_java_search_completion (o : NotifyOutcome) : NotifyResult :=
  match o with
  | .response code _ =>
      if code == 200 then ⟨1, false, "Callback de busca enviado com sucesso"⟩
      else ⟨1, false, "Callback retornou status inesperado"⟩
  | .timeout => ⟨1, false, "Erro ao enviar callback de busca"⟩
  | .connectionError => ⟨1, false, "Erro ao enviar callback de busca"⟩
  | .failure _ => ⟨1, false, "Erro ao enviar callback de busca"⟩

/-- The terminal state a job reaches. -/
inductive JobOutcome where
  | succeeded (face_id : ℤ)
  | failed (error : String)
deriving Repr, DecidableEq

/-- `workers.process_register_face` as the job substrate sees it: the
pipeline result decides the returned value / raised error (and hence the
job's terminal state); the notification is fired after that decision, with
whatever delivery outcome the network produces. -/
def process_register_face_job (reg : RegState) (suspect_id : ℤ)
    (dets : List Detection) (metadata : Metadata) (s3_path : String)
    (now : ℤ) (delivery : NotifyOutcome) :
    JobOutcome × NotifyResult × RegState :=
  match generate_embeddings dets with
  | .error e =>
      (JobOutcome.failed ("Falha ao gerar embedding: " ++ e),
       notify_java_completion delivery, reg)
  | .ok res =>
      let fr := insert_face reg (some suspect_id) res.embedding false
        metadata (some s3_path) now
      (JobOutcome.succeeded fr.1, notify_java_completion delivery, fr.2)

/-! ### Helper lemmas -/

theorem matchLE_trans (a b c : MilvusMatch) (hab : matchLE a b = true)
    (hbc : matchLE b c = true) : matchLE a c = true := by
  simp only [matchLE, Bool.or_eq_true, Bool.and_eq_true, decide_eq_true_eq,
    beq_iff_eq] at hab hbc ⊢
  rcases hab with h1 | ⟨h1, h1i⟩ <;> rcases hbc with h2 | ⟨h2, h2i⟩
  · exact Or.inl (h1.trans h2)
  · exact Or.inl (h2 ▸ h1)
  · exact Or.inl (h1 ▸ h2)
  · exact Or.inr ⟨h1.trans h2, le_trans h1i h2i⟩

theorem matchLE_total (a b : MilvusMatch) :
    (matchLE a b || matchLE b a) = true := by
  simp only [matchLE, Bool.or_eq_true, Bool.and_eq_true, decide_eq_true_eq,
    beq_iff_eq]
  rcases lt_trichotomy a.distance b.distance with h | h | h
  · exact Or.inl (Or.inl h)
  · rcases le_total a.face_id b.face_id with hi | hi
    · exact Or.inl (Or.inr ⟨h, hi⟩)
    · exact Or.inr (Or.inr ⟨h.symm, hi⟩)
  · exact Or.inr (Or.inl h)

theorem matchLE_distance_le (a b : MilvusMatch) (h : matchLE a b = true) :
    a.distance ≤ b.distance := by
  simp only [matchLE, Bool.or_eq_true, Bool.and_eq_true, decide_eq_true_eq,
    beq_iff_eq] at h
  rcases h with h | ⟨h, _⟩
  · exact h.le
  · exact h.le

/-- The list `search_similar_faces` returns is sorted by `matchLE`. -/
theorem search_sorted (reg : RegState) (emb : List ℚ) (top_k : ℕ) :
    (search_similar_faces reg emb top_k).Pairwise
      (fun a b => matchLE a b = true) := by
  apply List.Pairwise.sublist (List.take_sublist _ _)
  exact List.sorted_mergeSort matchLE_trans matchLE_total _

/-- Every element of a `search_similar_faces` result comes from a stored
row with `is_query = false`. -/
theorem search_mem_source (reg : RegState) (emb : List ℚ) (top_k : ℕ)
    (m : MilvusMatch) (hm : m ∈ search_similar_faces reg emb top_k) :
    ∃ r ∈ reg.records, r.is_query = false ∧ toMatch emb r = m := by
  have h1 : m ∈ ((reg.records.filter (fun r => !r.is_query)).map
      (toMatch emb)).mergeSort matchLE :=
    (List.take_sublist _ _).mem hm
  rw [List.mem_mergeSort, List.mem_map] at h1
  obtain ⟨r, hr, hrm⟩ := h1
  rw [List.mem_filter] at hr
  exact ⟨r, hr.1, by simpa using hr.2, hrm⟩

/-- The first returned hit has the smallest distance among all returned
hits. -/
theorem search_head_min (reg : RegState) (emb : List ℚ) (top_k : ℕ)
    (h : MilvusMatch) (t : List MilvusMatch)
    (he : search_similar_faces reg emb top_k = h :: t) :
    ∀ m ∈ h :: t, h.distance ≤ m.distance := by
  have hs := search_sorted reg emb top_k
  rw [he, List.pairwise_cons] at hs
  intro m hm
  rcases List.mem_cons.mp hm with rfl | hm
  · exact le_refl _
  · exact matchLE_distance_le _ _ (hs.1 m hm)

theorem argminIdx_lt : ∀ (l : List (WithTop ℚ)), l ≠ [] →
    argminIdx l < l.length
  | [], h => absurd rfl h
  | [_], _ => by simp [argminIdx]
  | d :: e :: rest, _ => by
    have ih := argminIdx_lt (e :: rest) (by simp)
    simp only [argminIdx]
    split
    · simp
    · simp only [List.length_cons] at ih ⊢
      omega

theorem argminIdx_getD_le : ∀ (l : List (WithTop ℚ)) (i : ℕ), i < l.length →
    l.getD (argminIdx l) ⊤ ≤ l.getD i ⊤
  | [], i, hi => absurd hi (by simp)
  | [d], i, hi => by
    match i with
    | 0 => simp [argminIdx]
    | i + 1 => simp at hi
  | d :: e :: rest, i, hi => by
    have ih := fun (a : ℕ) (ha : a < (e :: rest).length) =>
      argminIdx_getD_le (e :: rest) a ha
    simp only [argminIdx]
    split
    case isTrue hd =>
      match i with
      | 0 => simp
      | i + 1 =>
        simp only [List.getD_cons_zero, List.getD_cons_succ]
        exact le_trans hd (ih i (by simpa using hi))
    case isFalse hd =>
      match i with
      | 0 =>
        simp only [List.getD_cons_zero, List.getD_cons_succ]
        exact (not_le.mp hd).le
      | i + 1 =>
        simp only [List.getD_cons_succ]
        exact ih i (by simpa using hi)

/-! ### The claims -/

/-- C5: an image in which zero faces clear the confidence threshold makes
both the register operation and the search operation fail with the
extraction error, and neither performs a registry write: the record count
(and indeed the whole registry state) is unchanged. -/
theorem empty_detection_error_no_write (reg : RegState) (sid : Option ℤ)
    (md : Metadata) (s3 : Option String) (now : ℤ) (top_k : ℕ)
    (hsid : idTruthy sid = true) :
    register_face reg sid [] md s3 now =
      (.error "Nenhum rosto detectado na imagem.", reg) ∧
    search_faces_route reg [] top_k =
      (.error "Nenhum rosto detectado na imagem.", reg) ∧
    num_entities (register_face reg sid [] md s3 now).2 = num_entities reg ∧
    num_entities (search_faces_route reg [] top_k).2 = num_entities reg := by
  simp [register_face, hsid, generate_embeddings, search_faces_route,
    detect_and_search_faces]

theorem empty_detection_error_no_write_witness :
    idTruthy (some 4) = true ∧
    (register_face ⟨[]⟩ (some 4) [] [] none 0 =
      (.error "Nenhum rosto detectado na imagem.", (⟨[]⟩ : RegState)) ∧
    search_faces_route ⟨[]⟩ [] 3 =
      (.error "Nenhum rosto detectado na imagem.", (⟨[]⟩ : RegState)) ∧
    num_entities (register_face ⟨[]⟩ (some 4) [] [] none 0).2 =
      num_entities (⟨[]⟩ : RegState) ∧
    num_entities (search_faces_route ⟨[]⟩ [] 3).2 =
      num_entities (⟨[]⟩ : RegState)) :=
  ⟨by decide, empty_detection_error_no_write ⟨[]⟩ (some 4) [] none 0 3 (by decide)⟩

/-- C7 fails on the code: `insert_face` assigns `face_id` as row count plus
one, so after deleting record 1 out of records 1 and 2, the next insert is
assigned id 2 — the id of the still-live record 2.  This closed run
exhibits the collision. -/
theorem insert_reuses_live_id_after_delete :
    (insert_face ⟨[]⟩ (some 1) [1] false [] none 0).1 = 1 ∧
    (insert_face (insert_face ⟨[]⟩ (some 1) [1] false [] none 0).2
      (some 2) [2] false [] none 0).1 = 2 ∧
    (∃ r ∈ (delete_face (insert_face (insert_face ⟨[]⟩ (some 1) [1] false []
        none 0).2 (some 2) [2] false [] none 0).2 1).2.records,
      r.face_id = 2) ∧
    (insert_face (delete_face (insert_face (insert_face ⟨[]⟩ (some 1) [1]
        false [] none 0).2 (some 2) [2] false [] none 0).2 1).2
      (some 3) [3] false [] none 0).1 = 2 := by
  refine ⟨rfl, rfl, ⟨⟨2, 2, [2], 0, false, .pyRepr [], ""⟩, ?_, rfl⟩, rfl⟩
  simp [insert_face, delete_face, num_entities, storedSuspectId]

theorem notify_completion_tame (o : NotifyOutcome) :
    (notify_java_completion o).escalates = false ∧
    (notify_java_completion o).attempts = 1 := by
  cases o with
  | response code body =>
    by_cases h : code == 200 <;> simp [notify_java_completion, h]
  | timeout => simp [notify_java_completion]
  | connectionError => simp [notify_java_completion]
  | failure m => simp [notify_java_completion]

theorem notify_search_completion_tame (o : NotifyOutcome) :
    (notify_java_search_completion o).escalates = false ∧
    (notify_java_search_completion o).attempts = 1 := by
  cases o with
  | response code body =>
    by_cases h : code == 200 <;> simp [notify_java_search_completion, h]
  | timeout => simp [notify_java_search_completion]
  | connectionError => simp [notify_java_search_completion]
  | failure m => simp [notify_java_search_completion]

/-- C9: the job's terminal outcome is a function of the pipeline alone —
any two delivery outcomes of the completion notification yield the same
job outcome — and both notification functions swallow every failure
(timeout, connection error, non-2xx response) and post exactly once, never
retrying. -/
theorem notification_isolation (reg : RegState) (sid : ℤ)
    (dets : List Detection) (md : Metadata) (s3 : String) (now : ℤ)
    (d d' : NotifyOutcome) :
    (process_register_face_job reg sid dets md s3 now d).1 =
      (process_register_face_job reg sid dets md s3 now d').1 ∧
    (notify_java_completion d).escalates = false ∧
    (notify_java_completion d).attempts = 1 ∧
    (notify_java_search_completion d).escalates = false ∧
    (notify_java_search_completion d).attempts = 1 := by
  refine ⟨?_, (notify_completion_tame d).1, (notify_completion_tame d).2,
    (notify_search_completion_tame d).1, (notify_search_completion_tame d).2⟩
  cases hdets : generate_embeddings dets <;>
    simp [process_register_face_job, hdets]

/-- C10: a falsy `suspect_id` (absent or zero) is stored as identity `0`,
and an insert with a null identity produces exactly the same stored state
as an insert under identity `0` — the two are indistinguishable in
storage; the stored field itself is an integer, never null. -/
theorem null_identity_collapse (s : Option ℤ)
    (hs : s = none ∨ s = some 0) (reg : RegState) (emb : List ℚ)
    (q : Bool) (md : Metadata) (s3 : Option String) (now : ℤ) :
    storedSuspectId s = 0 ∧
    insert_face reg s emb q md s3 now =
      insert_face reg (some 0) emb q md s3 now := by
  rcases hs with rfl | rfl <;>
    simp [storedSuspectId, insert_face]

theorem null_identity_collapse_witness :
    ((none : Option ℤ) = none ∨ (none : Option ℤ) = some 0) ∧
    (storedSuspectId none = 0 ∧
      insert_face ⟨[]⟩ none [1] true [] none 0 =
        insert_face ⟨[]⟩ (some 0) [1] true [] none 0) :=
  ⟨Or.inl rfl,
   null_identity_collapse none (Or.inl rfl) ⟨[]⟩ [1] true [] none 0⟩

/-- C4: every search result element is produced by a stored row with
`is_query = false` — a record stored with `is_query = true` never appears
in a result — and the search result is unchanged when the registry is
restricted to its `is_query = false` partition beforehand. -/
theorem search_partition_isolation (reg : RegState) (emb : List ℚ)
    (top_k : ℕ) (m : MilvusMatch)
    (hm : m ∈ search_similar_faces reg emb top_k) :
    (∃ r ∈ reg.records, r.is_query = false ∧ toMatch emb r = m) ∧
    search_similar_faces ⟨reg.records.filter (fun r => !r.is_query)⟩ emb
      top_k = search_similar_faces reg emb top_k := by
  refine ⟨search_mem_source reg emb top_k m hm, ?_⟩
  simp [search_similar_faces, List.filter_filter]

theorem search_partition_isolation_witness :
    (⟨1, 5, 0⟩ : MilvusMatch) ∈
      search_similar_faces ⟨[⟨1, 5, [0], 0, false, .pyRepr [], ""⟩]⟩ [0] 3 ∧
    ((∃ r ∈ (⟨[⟨1, 5, [0], 0, false, .pyRepr [], ""⟩]⟩ : RegState).records,
        r.is_query = false ∧ toMatch [0] r = ⟨1, 5, 0⟩) ∧
      search_similar_faces
        ⟨(⟨[⟨1, 5, [0], 0, false, .pyRepr [], ""⟩]⟩ : RegState).records.filter
          (fun r => !r.is_query)⟩ [0] 3 =
        search_similar_faces ⟨[⟨1, 5, [0], 0, false, .pyRepr [], ""⟩]⟩ [0] 3) := by
  have hm : (⟨1, 5, 0⟩ : MilvusMatch) ∈
      search_similar_faces ⟨[⟨1, 5, [0], 0, false, .pyRepr [], ""⟩]⟩ [0] 3 := by
    norm_num [search_similar_faces, List.mergeSort, toMatch, sumSqDiff]
  exact ⟨hm, search_partition_isolation _ _ _ _ hm⟩

/-- C8 fails on the code: `insert_face` serializes metadata with
`str(metadata or {})` — Python repr, not JSON — so for a record registered
with a non-empty metadata map, `update_face`'s recovery
`json.loads(current["metadata"])` raises and the `except` fallback sets
the old metadata to the empty map: the old keys are dropped instead of
merged.  Concretely: register a face with metadata binding key a, patch it
with metadata binding key b — the updated record's metadata no longer
binds a (and the update does preserve embedding, timestamp and the
`is_query` flag), while the merge the claim requires keeps a bound. -/
theorem update_face_drops_old_metadata :
    (∃ reg2, update_face
        (insert_face ⟨[]⟩ (some 5) [2] false [("a", "x")] none 10).2
        1 (some 9) [("b", "y")] = .ok reg2 ∧
      reg2.records.map (fun r => jsonLoadsD r.metadata) = [[("b", "y")]] ∧
      reg2.records.map (fun r => (r.embedding, r.timestamp, r.is_query)) =
        [([2], 10, false)]) ∧
    (jsonLoadsD (StoredMeta.pyRepr [("a", "x")]) = [] ∧
      (mergeMeta [("a", "x")] [("b", "y")]).lookup "a" = some "x") := by
  exact ⟨⟨_, rfl, rfl, rfl⟩, rfl, rfl⟩

/-- C1: for an image yielding one or more detections the pipeline returns
a result (a winner is always reported, however large the distances); each
detection's score is the distance of the first — hence smallest-distance —
hit of its registry search, infinity when the search returns no match for
it; and the reported winner index is in range and attains the globally
smallest score across all detections. -/
theorem multi_face_winner_selection (reg : RegState) (d0 : Detection)
    (rest : List Detection) (top_k : ℕ) :
    ∃ out, detect_and_search_faces reg (d0 :: rest) top_k = .ok out ∧
      out.winner_index < (d0 :: rest).length ∧
      (∀ d ∈ d0 :: rest,
        ∀ h ∈ (search_similar_faces reg d.embedding top_k).head?,
          bestDistance (search_similar_faces reg d.embedding top_k) =
            (h.distance : WithTop ℚ)) ∧
      (∀ d ∈ d0 :: rest, search_similar_faces reg d.embedding top_k = [] →
        bestDistance (search_similar_faces reg d.embedding top_k) = ⊤) ∧
      (∀ d ∈ d0 :: rest, ∀ m ∈ search_similar_faces reg d.embedding top_k,
        bestDistance (search_similar_faces reg d.embedding top_k) ≤
          (m.distance : WithTop ℚ)) ∧
      (∀ i, i < (d0 :: rest).length →
        bestDistance (search_similar_faces reg
            (((d0 :: rest).getD out.winner_index ⟨[], []⟩).embedding) top_k) ≤
          bestDistance (search_similar_faces reg
            (((d0 :: rest).getD i ⟨[], []⟩).embedding) top_k)) := by
  refine ⟨_, rfl, ?_, ?_, ?_, ?_, ?_⟩
  · show argminIdx ((d0 :: rest).map
        (fun d => bestDistance (search_similar_faces reg d.embedding top_k)))
      < (d0 :: rest).length
    have h := argminIdx_lt ((d0 :: rest).map
      (fun d => bestDistance (search_similar_faces reg d.embedding top_k)))
      (by simp)
    simpa using h
  · intro d _ h hh
    cases e : search_similar_faces reg d.embedding top_k with
    | nil => rw [e] at hh; simp at hh
    | cons a t =>
      rw [e] at hh
      simp only [List.head?_cons, Option.mem_def, Option.some.injEq] at hh
      subst hh
      rfl
  · intro d _ he
    rw [he]
    rfl
  · intro d _ m hm
    cases e : search_similar_faces reg d.embedding top_k with
    | nil => rw [e] at hm; simp at hm
    | cons a t =>
      rw [e] at hm
      have := search_head_min reg d.embedding top_k a t e m hm
      simpa [bestDistance] using this
  · intro i hi
    show bestDistance (search_similar_faces reg
        (((d0 :: rest).getD (argminIdx ((d0 :: rest).map
          (fun d => bestDistance (search_similar_faces reg d.embedding top_k))))
          ⟨[], []⟩).embedding) top_k) ≤ _
    have hmap : ∀ j, j < (d0 :: rest).length →
        ((d0 :: rest).map
          (fun d => bestDistance (search_similar_faces reg d.embedding top_k))).getD
            j ⊤ =
          bestDistance (search_similar_faces reg
            (((d0 :: rest).getD j ⟨[], []⟩).embedding) top_k) := by
      intro j hj
      rw [List.getD_eq_getElem _ _ (by simpa using hj),
        List.getD_eq_getElem _ _ hj, List.getElem_map]
    have hw : argminIdx ((d0 :: rest).map
        (fun d => bestDistance (search_similar_faces reg d.embedding top_k)))
        < (d0 :: rest).length := by
      simpa using argminIdx_lt ((d0 :: rest).map
        (fun d => bestDistance (search_similar_faces reg d.embedding top_k)))
        (by simp)
    have hle := argminIdx_getD_le ((d0 :: rest).map
      (fun d => bestDistance (search_similar_faces reg d.embedding top_k)))
      i (by simpa using hi)
    rwa [hmap _ hw, hmap _ hi] at hle

/-- The difference vector `v1 - v2` as a point of the Euclidean space of
dimension `v1.length`. -/
def diffVec (v1 v2 : List ℚ) (h : v1.length = v2.length) :
    EuclideanSpace ℝ (Fin v1.length) :=
  fun i => ((v1.get i : ℚ) : ℝ) - ((v2.get (Fin.cast h i) : ℚ) : ℝ)

theorem sumSqDiff_eq_sum : ∀ (v1 v2 : List ℚ) (h : v1.length = v2.length),
    sumSqDiff v1 v2 =
      ∑ i : Fin v1.length, (v1.get i - v2.get (Fin.cast h i)) ^ 2
  | [], [], _ => by simp [sumSqDiff]
  | [], b :: t2, h => by simp at h
  | a :: t1, [], h => by simp at h
  | a :: t1, b :: t2, h => by
    have h2 : t1.length = t2.length := by simpa using h
    have hrec := sumSqDiff_eq_sum t1 t2 h2
    simp only [sumSqDiff, List.zip_cons_cons, List.map_cons,
      List.sum_cons] at hrec ⊢
    rw [hrec]
    simp only [List.length_cons]
    rw [Fin.sum_univ_succ]
    congr 1

/-- The Euclidean norm of the difference vector is the square root of the
summed squared component differences. -/
theorem norm_diffVec (v1 v2 : List ℚ) (h : v1.length = v2.length) :
    ‖diffVec v1 v2 h‖ = Real.sqrt ((sumSqDiff v1 v2 : ℚ) : ℝ) := by
  rw [EuclideanSpace.norm_eq]
  congr 1
  rw [sumSqDiff_eq_sum v1 v2 h]
  push_cast
  refine Finset.sum_congr rfl (fun i _ => ?_)
  rw [Real.norm_eq_abs, sq_abs]
  simp [diffVec]

/-- C6: when both extractions succeed, the reported distance is the
Euclidean (L2) norm of the difference of the two extracted embeddings,
`same_person` holds exactly when that distance is strictly below the
threshold, the threshold's default is 0.7, and the comparison leaves the
registry untouched. -/
theorem compare_embeddings_spec (d1 d2 : Detection) (r1 r2 : List Detection)
    (threshold : ℚ) (reg : RegState)
    (hlen : d1.embedding.length = d2.embedding.length) :
    ∃ c, compare_embeddings (d1 :: r1) (d2 :: r2) threshold = .ok c ∧
      c.distance = ‖diffVec d1.embedding d2.embedding hlen‖ ∧
      (c.same_person ↔ c.distance < (threshold : ℝ)) ∧
      compare_default_threshold = 7 / 10 ∧
      (compare_route reg (d1 :: r1) (d2 :: r2) threshold).2 = reg := by
  refine ⟨_, rfl, ?_, Iff.rfl, rfl, rfl⟩
  rw [norm_diffVec d1.embedding d2.embedding hlen]
  rfl

theorem compare_embeddings_spec_witness :
    (([1, 2] : List ℚ).length = ([3, 1] : List ℚ).length) ∧
    (∃ c, compare_embeddings [⟨[0, 0, 1, 1], [1, 2]⟩]
        [⟨[0, 0, 1, 1], [3, 1]⟩] 1 = .ok c ∧
      c.distance = ‖diffVec [1, 2] [3, 1] rfl‖ ∧
      (c.same_person ↔ c.distance < ((1 : ℚ) : ℝ)) ∧
      compare_default_threshold = 7 / 10 ∧
      (compare_route ⟨[]⟩ [⟨[0, 0, 1, 1], [1, 2]⟩]
        [⟨[0, 0, 1, 1], [3, 1]⟩] 1).2 = ⟨[]⟩) :=
  ⟨rfl, compare_embeddings_spec ⟨[0, 0, 1, 1], [1, 2]⟩
    ⟨[0, 0, 1, 1], [3, 1]⟩ [] [] 1 ⟨[]⟩ rfl⟩

/-- C2 fails on the code: the search path performs no registry write at
all — in particular it never inserts the query embedding as an
`is_query = true` record (the worker's docstring notwithstanding).  The
registry after any search, via the route or the worker, is exactly the
registry before it; a concrete run with one detection and one enrolled
record succeeds yet leaves zero query records stored. -/
theorem search_path_inserts_no_query_record (reg : RegState)
    (dets : List Detection) (top_k : ℕ) :
    (search_faces_route reg dets top_k).2 = reg ∧
    (process_search_face_worker reg dets top_k).2 = reg ∧
    (∃ out, (search_faces_route ⟨[⟨1, 5, [0], 0, false, .pyRepr [], ""⟩]⟩
        [⟨[0, 0, 1, 1], [0]⟩] 3).1 = .ok out) ∧
    ((search_faces_route ⟨[⟨1, 5, [0], 0, false, .pyRepr [], ""⟩]⟩
        [⟨[0, 0, 1, 1], [0]⟩] 3).2.records.filter (fun r => r.is_query)) =
      [] := by
  exact ⟨rfl, rfl, ⟨_, rfl⟩, rfl⟩

/-- C3 fails on the code: `generate_embeddings` always extracts the
embedding of `detections[0]`, so the register operation inserts the first
detection's embedding even when the distance-ranked winner (per the search
pipeline on the same registry) is a different detection.  Concretely, with
enrolled embeddings `[0]` and `[10]` and detections `[5]` and `[10]`, the
winner is detection 1, yet register stores detection 0's embedding `[5]`,
which differs from the winner's embedding `[10]`. -/
theorem register_inserts_first_not_winner :
    (∃ out, detect_and_search_faces
        ⟨[⟨1, 7, [0], 0, false, .pyRepr [], ""⟩, ⟨2, 8, [10], 0, false, .pyRepr [], ""⟩]⟩
        [⟨[0, 0, 1, 1], [5]⟩, ⟨[2, 2, 3, 3], [10]⟩] 3 = .ok out ∧
      out.winner_index = 1) ∧
    ((register_face
        ⟨[⟨1, 7, [0], 0, false, .pyRepr [], ""⟩, ⟨2, 8, [10], 0, false, .pyRepr [], ""⟩]⟩
        (some 9) [⟨[0, 0, 1, 1], [5]⟩, ⟨[2, 2, 3, 3], [10]⟩] [] none
        0).2.records.map (fun r => r.embedding)) = [[0], [10], [5]] ∧
    ([5] : List ℚ) ≠ [10] := by
  refine ⟨⟨_, rfl, ?_⟩, rfl, by decide⟩
  show argminIdx _ = 1
  norm_num [search_similar_faces, List.mergeSort, List.merge, toMatch,
    sumSqDiff, bestDistance, argminIdx, matchLE]

end FaceAPI
